import Mathlib

/-!
Shallow embedding of the nexo-dual-investment core (decision scorer,
support-level analyzer, deal evaluator, stochastic forecaster) and proofs
of the specification claims about it.

Python float arithmetic is modelled by exact rational arithmetic (ℚ) for
the scorer, the Fibonacci levels and the deal evaluator, and by real
arithmetic (ℝ) for the Monte-Carlo forecaster, whose source uses the
transcendental functions log and exp.
-/

namespace NexoDual

/-- Momentum reading of the analysis report: the `rsi` sub-dict of
`auto_ta_analysis`, fields `valore` and `divergenza`. -/
structure MomentumReading where
  valore : ℚ
  divergenza : String
deriving DecidableEq, Repr

/-- Volume profile of the analysis report: the `volumi` sub-dict,
fields `sopra_media_perc` and `spike_supporto_perc`. -/
structure VolumeProfile where
  sopra_media_perc : ℚ
  spike_supporto_perc : ℚ
deriving DecidableEq, Repr

/-- Monte-Carlo summary of the analysis report: the `montecarlo` sub-dict. -/
structure MonteCarloInfo where
  prob_Bx_gt_target : ℚ
  bull_case : ℚ
  base_case : ℚ
  bear_case : ℚ
  volatilita_giornaliera : ℚ
deriving DecidableEq, Repr

/-- Fibonacci level set as built by `fibonacci_retracement`: the seven
retracement levels keyed "0.0%", "23.6%", "38.2%", "50.0%", "61.8%",
"78.6%", "100.0%", in dict insertion order. -/
structure FibonacciLevels where
  p0 : ℚ
  p236 : ℚ
  p382 : ℚ
  p50 : ℚ
  p618 : ℚ
  p786 : ℚ
  p100 : ℚ
deriving DecidableEq, Repr

/-- Values of the Fibonacci dict in insertion order, as iterated by
`fibo_fb`'s loop over `report["supporti"]["fibonacci"].values()`. -/
def FibonacciLevels.values (f : FibonacciLevels) : List ℚ :=
  [f.p0, f.p236, f.p382, f.p50, f.p618, f.p786, f.p100]

/-- Analysis report assembled by `auto_ta_analysis`: Fibonacci levels and
support clusters (`supporti`), momentum reading (`rsi`), volume profile
(`volumi`) and Monte-Carlo summary (`montecarlo`). -/
structure AnalysisReport where
  fibonacci : FibonacciLevels
  cluster_minimi : List ℚ
  rsi : MomentumReading
  volumi : VolumeProfile
  montecarlo : MonteCarloInfo
deriving DecidableEq, Repr

/-- Decision result returned by `ta_report_feedback`. -/
structure DecisionResult where
  score : ℚ
  max_score : ℚ
  feedback : String
  warnings : List String
  suggested_action : String
deriving DecidableEq, Repr

/-- Python `min` over a list; the empty case is unreachable at every call
site (the Fibonacci dict always has seven entries). -/
def listMin : List ℚ → ℚ
  | [] => 0
  | x :: xs => xs.foldl min x

/-- Python `max` over a list; the empty case is unreachable at every call
site (the Fibonacci dict always has seven entries). -/
def listMax : List ℚ → ℚ
  | [] => 0
  | x :: xs => xs.foldl max x

/-- Python `round(q, 2)`. Python rounds half to even; this `round` rounds
half up, but the two agree whenever `q * 100` is an integer, which holds
for every score the four filters can produce (all are multiples of 1/2). -/
def round2 (q : ℚ) : ℚ := round (q * 100) / 100

/-- Warning appended by `rsi_fb` on a positive divergence. -/
def warnRsiPos : String := "Divergenza RSI positiva: possibile inversione rialzista."

/-- Warning appended by `rsi_fb` on a negative divergence. -/
def warnRsiNeg : String := "Divergenza RSI negativa: possibile inversione ribassista."

/-- Warning appended by `rsi_fb` when the oscillator is above 70. -/
def warnRsiHigh (v : ℚ) : String :=
  "RSI molto alto (" ++ toString v ++ "): rischio ipercomprato."

/-- Warning appended by `rsi_fb` when the oscillator is below 30. -/
def warnRsiLow (v : ℚ) : String :=
  "RSI molto basso (" ++ toString v ++ "): possibile rimbalzo tecnico."

/-- Warning appended by `fibo_fb` when the price is near the minimum support. -/
def warnSupport : String := "Prezzo vicino a un supporto chiave: rischio drawdown limitato."

/-- Warning appended by `fibo_fb` when the price is near the maximum resistance. -/
def warnResistance : String :=
  "Prezzo vicino a una resistenza importante: attenzione a possibili ritracciamenti."

/-- Warning appended by `volumes_fb` when volume is above its moving average. -/
def warnVolAbove : String := "Volumi sopra la media: conferma di interesse sul mercato."

/-- Warning appended by `volumes_fb` when volume is below its moving average. -/
def warnVolBelow : String := "Volumi sotto la media: attenzione a segnali deboli."

/-- Warning appended by `volumes_fb` on a recent volume spike. -/
def warnVolSpike : String :=
  "Spike di volume recente: possibile fase di accumulazione/distribuzione."

/-- Warning appended by `montecarlo_fb` on a high target-exceedance probability. -/
def warnProbHigh (p : ℚ) : String :=
  "Probabilità Monte Carlo di superare il target elevata: " ++ toString p ++ "%."

/-- Warning appended by `montecarlo_fb` on a low target-exceedance probability. -/
def warnProbLow (p : ℚ) : String :=
  "Probabilità Monte Carlo di superare il target bassa: " ++ toString p ++ "%."

/-- Feedback sentence for the favorable ("entra") decision. -/
def fbFavorevoli : String :=
  "Condizioni tecniche favorevoli: puoi considerare di entrare nel mercato."

/-- Feedback sentence for the mixed ("aspetta") decision. -/
def fbMiste : String :=
  "Condizioni tecniche miste: valuta con cautela, potresti aspettare conferme."

/-- Feedback sentence for the unfavorable ("evita") decision. -/
def fbSfavorevoli : String :=
  "Condizioni tecniche sfavorevoli: meglio evitare l\x27ingresso ora."

/-- Momentum filter `rsi_fb` of ta_report_feedback.py (lines 99-114).
The Python function mutates the warnings list and returns the score; it is
modelled as returning the (score, warnings) pair. -/
def rsi_fb (report : AnalysisReport) (score : ℚ) (warnings : List String) :
    ℚ × List String :=
  let rsi_val := report.rsi.valore
  let rsi_div := report.rsi.divergenza
  let s1 : ℚ × List String :=
    if rsi_div = "nessuna" then (score + 1, warnings)
    else if rsi_div = "positiva" then (score + 1, warnings ++ [warnRsiPos])
    else if rsi_div = "negativa" then (score, warnings ++ [warnRsiNeg])
    else (score, warnings)
  if rsi_val > 70 then (s1.1, s1.2 ++ [warnRsiHigh rsi_val])
  else if rsi_val < 30 then (s1.1 + 1/2, s1.2 ++ [warnRsiLow rsi_val])
  else s1

/-- Support-proximity filter `fibo_fb` of ta_report_feedback.py
(lines 83-96): collects the seven Fibonacci level values, takes their min
and max, defaults the current price to the Monte-Carlo base case, and
compares against 1.02·min and 0.98·max. -/
def fibo_fb (current_price : Option ℚ) (report : AnalysisReport) (score : ℚ)
    (warnings : List String) : ℚ × List String :=
  let fibo_levels := report.fibonacci.values
  let min_support := listMin fibo_levels
  let max_resistance := listMax fibo_levels
  let cp := current_price.getD report.montecarlo.base_case
  if cp ≤ min_support * 1.02 then (score + 1, warnings ++ [warnSupport])
  else if cp ≥ max_resistance * 0.98 then (score, warnings ++ [warnResistance])
  else (score, warnings)

/-- Volume filter `volumes_fb` of ta_report_feedback.py (lines 70-80). -/
def volumes_fb (report : AnalysisReport) (score : ℚ) (warnings : List String) :
    ℚ × List String :=
  let vol_perc := report.volumi.sopra_media_perc
  let vol_spike := report.volumi.spike_supporto_perc
  let s1 : ℚ × List String :=
    if vol_perc > 10 then (score + 1, warnings ++ [warnVolAbove])
    else if vol_perc < -10 then (score, warnings ++ [warnVolBelow])
    else (score, warnings)
  if vol_spike > 20 then (s1.1, s1.2 ++ [warnVolSpike]) else s1

/-- Monte-Carlo filter `montecarlo_fb` of ta_report_feedback.py (lines 60-67). -/
def montecarlo_fb (report : AnalysisReport) (score : ℚ) (warnings : List String) :
    ℚ × List String :=
  let prob := report.montecarlo.prob_Bx_gt_target
  if prob > 60 then (score + 1, warnings ++ [warnProbHigh prob])
  else if prob < 30 then (score, warnings ++ [warnProbLow prob])
  else (score, warnings)

/-- Decision step `suggestion_fb` of ta_report_feedback.py (lines 46-57):
normalizes the score to a percentage of max_score and picks the action and
feedback by the 75 / 50 thresholds. Returns (feedback, score_norm_perc,
suggested_action) as in the source. -/
def suggestion_fb (max_score score : ℚ) : String × ℚ × String :=
  let score_norm_perc := score / max_score * 100
  if score_norm_perc ≥ 75 then (fbFavorevoli, score_norm_perc, "entra")
  else if score_norm_perc ≥ 50 then (fbMiste, score_norm_perc, "aspetta")
  else (fbSfavorevoli, score_norm_perc, "evita")

/-- Decision scorer `ta_report_feedback` of ta_report_feedback.py
(lines 1-43): threads score 0 and an empty warnings list through the four
filters in order (momentum, support, volume, Monte-Carlo), then derives the
suggestion and packages the result. -/
def ta_report_feedback (report : AnalysisReport) (current_price : Option ℚ) :
    DecisionResult :=
  let max_score : ℚ := 4
  let r1 := rsi_fb report 0 []
  let r2 := fibo_fb current_price report r1.1 r1.2
  let r3 := volumes_fb report r2.1 r2.2
  let r4 := montecarlo_fb report r3.1 r3.2
  let sug := suggestion_fb max_score r4.1
  { score := round2 r4.1
    max_score := max_score
    feedback := sug.1
    warnings := r4.2
    suggested_action := sug.2.2 }

/-- Python slice `xs[-k:]` as used by `fibonacci_retracement` to select the
lookback window: the last `k` elements, or the whole list when `k = 0` or
`k ≥ length` (Python's negative-index slicing semantics). -/
def takeLastPy (k : ℕ) (l : List ℚ) : List ℚ :=
  if k = 0 then l else l.drop (l.length - k)

/-- Fibonacci retracement of technical_analysis.py (lines 81-94): max and
min close over the lookback window, and the seven levels obtained by
interpolating from the max with the fixed ratios. -/
def fibonacci_retracement (closes : List ℚ) (lookback : ℕ) : FibonacciLevels :=
  let window := takeLastPy lookback closes
  let max_price := listMax window
  let min_price := listMin window
  let diff := max_price - min_price
  { p0 := max_price
    p236 := max_price - 0.236 * diff
    p382 := max_price - 0.382 * diff
    p50 := max_price - 0.5 * diff
    p618 := max_price - 0.618 * diff
    p786 := max_price - 0.786 * diff
    p100 := min_price }

/-- Divergence classification step of `rsi_analysis` in technical_analysis.py
(lines 121-127): given the price trend and the oscillator trend (differences
of sub-window means computed just above in the source), produce "positiva"
when the price trend is negative and the oscillator trend positive,
"negativa" in the mirrored case, and "nessuna" otherwise. -/
def classify_divergence (price_trend rsi_trend : ℚ) : String :=
  if price_trend < 0 ∧ 0 < rsi_trend then "positiva"
  else if price_trend > 0 ∧ 0 > rsi_trend then "negativa"
  else "nessuna"

/-- Swap of the two non-trivial divergence classes, used to state the
antisymmetry of `classify_divergence`. -/
def swapDivergence (d : String) : String :=
  if d = "positiva" then "negativa"
  else if d = "negativa" then "positiva"
  else d

/-- Net-gain result dict of `calculate_net_gain` in calculator.py. -/
structure NetGainResult where
  investment_amount : ℚ
  apy : ℚ
  time_period : ℚ
  deal_price : ℚ
  interest_rate : ℚ
  interest : ℚ
  analysis_feedback : DecisionResult
  breakeven_price : ℚ
  predicted_price : ℚ
  purchase_loss : ℚ
  net_gain : ℚ
deriving DecidableEq, Repr

/-- Deal evaluator `calculate_net_gain` of calculator.py (lines 4-53). The
analysis report produced by `auto_ta_analysis` (an external data fetch plus
the four analyzers) enters as the `report` parameter; the predicted price is
its Monte-Carlo base case, exactly as in the source. -/
def calculate_net_gain (s apy t deal : ℚ) (report : AnalysisReport) : NetGainResult :=
  let interest_rate := (apy / 100) * (t / 365)
  let interest := s * interest_rate
  let breakeven_price := deal * (1 - interest_rate)
  let analysis_feedback := ta_report_feedback report none
  let predicted_price := report.montecarlo.base_case
  let purchase_loss :=
    if predicted_price ≤ deal then s * (1 - predicted_price / deal) else 0
  let net_gain := interest - purchase_loss
  { investment_amount := s
    apy := apy
    time_period := t
    deal_price := deal
    interest_rate := interest_rate
    interest := interest
    analysis_feedback := analysis_feedback
    breakeven_price := breakeven_price
    predicted_price := predicted_price
    purchase_loss := purchase_loss
    net_gain := net_gain }

/-- Parameter validation and dispatch of `process_parameters` in main.py
(lines 53-111), after the five comma-separated fields have been parsed to
integers: the guard `s <= 0 or apy <= 0 or t <= 0 or deal <= 0 or
len(symbol) < 3` raises ValueError("I parametri non sono validi") before
`calculate_net_gain` runs; modelled as an `Except`. -/
def process_parameters (s apy t deal : ℤ) (symbol : String)
    (report : AnalysisReport) : Except String NetGainResult :=
  if s ≤ 0 ∨ apy ≤ 0 ∨ t ≤ 0 ∨ deal ≤ 0 ∨ symbol.length < 3 then
    Except.error "I parametri non sono validi"
  else
    Except.ok (calculate_net_gain (s : ℚ) (apy : ℚ) (t : ℚ) (deal : ℚ) report)

/-- Mean of a pandas series, as used for `mu` in `monte_carlo_forecast`. -/
noncomputable def seriesMean (l : List ℝ) : ℝ := l.sum / l.length

/-- Sample standard deviation of a pandas series (`Series.std()`, ddof = 1),
as used for `sigma` in `monte_carlo_forecast`; junk value 0 for fewer than
two elements, where pandas would produce NaN. -/
noncomputable def seriesStd (l : List ℝ) : ℝ :=
  Real.sqrt (((l.map fun x => (x - seriesMean l) ^ 2).sum) / ((l.length : ℝ) - 1))

/-- Log returns `np.log(close / close.shift(1)).dropna()` of
technical_analysis.py (line 204): the log of each close divided by its
predecessor. -/
noncomputable def log_returns (closes : List ℝ) : List ℝ :=
  ((closes.drop 1).zip closes).map fun p => Real.log (p.1 / p.2)

/-- Historical drift `mu` of `monte_carlo_forecast` (line 205). -/
noncomputable def mc_mu (closes : List ℝ) : ℝ := seriesMean (log_returns closes)

/-- Historical volatility `sigma` of `monte_carlo_forecast` before the
floor (line 206). -/
noncomputable def mc_sigma_raw (closes : List ℝ) : ℝ := seriesStd (log_returns closes)

/-- Volatility after the numerical floor of `monte_carlo_forecast`
(lines 207-209): `if sigma < min_sigma: sigma = min_sigma` with
`min_sigma = 1e-4`. -/
noncomputable def mc_sigma (closes : List ℝ) : ℝ :=
  if mc_sigma_raw closes < 1e-4 then 1e-4 else mc_sigma_raw closes

/-- Starting price `S0 = df['close'].iloc[-1]` of `monte_carlo_forecast`. -/
noncomputable def mc_S0 (closes : List ℝ) : ℝ := closes.getLastD 0

/-- One simulated path of `monte_carlo_forecast`: the starting price
compounded through `days` steps, each multiplying by
`exp(np.random.normal(mu, sigma))`; the normal draw is modelled as
`mu + sigma * z j` with `z j` the j-th standard-normal draw of the path,
an explicit randomness source. -/
noncomputable def mc_path (mu sigma S0 : ℝ) (days : ℕ) (z : ℕ → ℝ) : ℝ :=
  (List.range days).foldl (fun price j => price * Real.exp (mu + sigma * z j)) S0

/-- Terminal simulated prices of `monte_carlo_forecast` (lines 210-221):
when `np.isclose(sigma, 0)` (absolute tolerance 1e-8, relative 1e-5 against
0) the code returns `n_sim` copies of the starting price, otherwise it runs
the simulation loop; `Z i j` is the j-th standard-normal draw of the i-th
simulation. The percentile and probability aggregation downstream consumes
this list. -/
noncomputable def mc_results (closes : List ℝ) (days n_sim : ℕ)
    (Z : ℕ → ℕ → ℝ) : List ℝ :=
  if |mc_sigma closes - 0| ≤ 1e-8 + 1e-5 * |(0 : ℝ)| then
    List.replicate n_sim (mc_S0 closes)
  else
    (List.range n_sim).map fun i =>
      mc_path (mc_mu closes) (mc_sigma closes) (mc_S0 closes) days (Z i)

/-- Constant close-price series used to exercise the zero-variance case of
the forecaster. -/
noncomputable def constCloses : List ℝ := [100, 100, 100, 100]

/-- Report with every Fibonacci level, the base case and the price signals
aligned so that all four filters fire together with the oversold bonus. -/
def reportOversold : AnalysisReport :=
  { fibonacci := ⟨100, 100, 100, 100, 100, 100, 100⟩
    cluster_minimi := []
    rsi := ⟨20, "positiva"⟩
    volumi := ⟨15, 0⟩
    montecarlo := ⟨100, 100, 100, 100, 0⟩ }

/-- Report whose seven Fibonacci levels coincide (degenerate equal range),
with a base case equal to that level. -/
def reportFlatFibo : AnalysisReport :=
  { fibonacci := ⟨200, 200, 200, 200, 200, 200, 200⟩
    cluster_minimi := []
    rsi := ⟨50, "nessuna"⟩
    volumi := ⟨0, 0⟩
    montecarlo := ⟨50, 200, 200, 200, 0⟩ }

/-- Report whose Monte-Carlo base case is 1750, the predicted price of the
specification's worked deal example. -/
def report1750 : AnalysisReport :=
  { fibonacci := ⟨1800, 1790, 1780, 1775, 1770, 1760, 1750⟩
    cluster_minimi := []
    rsi := ⟨50, "nessuna"⟩
    volumi := ⟨0, 0⟩
    montecarlo := ⟨50, 1760, 1750, 1740, 2⟩ }

/-- Report with volume 15% above its moving average and no spike. -/
def reportVol15 : AnalysisReport :=
  { fibonacci := ⟨1, 1, 1, 1, 1, 1, 1⟩
    cluster_minimi := []
    rsi := ⟨50, "nessuna"⟩
    volumi := ⟨15, 0⟩
    montecarlo := ⟨50, 1, 1, 1, 0⟩ }

/-- Report with volume 15% below its moving average and no spike. -/
def reportVolNeg15 : AnalysisReport :=
  { fibonacci := ⟨1, 1, 1, 1, 1, 1, 1⟩
    cluster_minimi := []
    rsi := ⟨50, "nessuna"⟩
    volumi := ⟨-15, 0⟩
    montecarlo := ⟨50, 1, 1, 1, 0⟩ }

lemma positiva_ne_nessuna : "positiva" ≠ "nessuna" := by decide

lemma negativa_ne_nessuna : "negativa" ≠ "nessuna" := by decide

lemma negativa_ne_positiva : "negativa" ≠ "positiva" := by decide

lemma nessuna_ne_positiva : "nessuna" ≠ "positiva" := by decide

lemma nessuna_ne_negativa : "nessuna" ≠ "negativa" := by decide

lemma positiva_ne_negativa : "positiva" ≠ "negativa" := by decide

/-- C4: the suggested action is a pure deterministic function of
percent = score / max_score · 100 with inclusive lower boundaries:
percent ≥ 75 yields "entra" with the favorable-conditions feedback,
50 ≤ percent < 75 yields "aspetta" with the mixed-conditions feedback,
percent < 50 yields "evita" with the unfavorable-conditions feedback; in
particular score 3 of 4 (percent 75) yields "entra" and score 2 of 4
(percent 50) yields "aspetta". -/
theorem C4_suggestion_thresholds (max_score score : ℚ) :
    (score / max_score * 100 ≥ 75 →
      suggestion_fb max_score score = (fbFavorevoli, score / max_score * 100, "entra")) ∧
    (50 ≤ score / max_score * 100 ∧ score / max_score * 100 < 75 →
      suggestion_fb max_score score = (fbMiste, score / max_score * 100, "aspetta")) ∧
    (score / max_score * 100 < 50 →
      suggestion_fb max_score score = (fbSfavorevoli, score / max_score * 100, "evita")) ∧
    suggestion_fb 4 3 = (fbFavorevoli, 75, "entra") ∧
    suggestion_fb 4 2 = (fbMiste, 50, "aspetta") := by
  refine ⟨?_, ?_, ?_, ?_, ?_⟩
  · intro h
    unfold suggestion_fb
    rw [if_pos h]
  · rintro ⟨h1, h2⟩
    unfold suggestion_fb
    rw [if_neg (by linarith), if_pos h1]
  · intro h
    unfold suggestion_fb
    rw [if_neg (by linarith), if_neg (by linarith)]
  · norm_num [suggestion_fb]
  · norm_num [suggestion_fb]

/-- C8: feeding a volume profile with sopra_media_perc = 15 (spike ≤ 20)
adds exactly 1 to the score and appends exactly the single confirmation
warning; feeding -15 (spike ≤ 20) adds 0 and appends exactly the single
weak-signal warning. -/
theorem C8_volume_filter (r1 r2 : AnalysisReport) (s : ℚ) (w : List String)
    (h1 : r1.volumi.sopra_media_perc = 15)
    (h1s : r1.volumi.spike_supporto_perc ≤ 20)
    (h2 : r2.volumi.sopra_media_perc = -15)
    (h2s : r2.volumi.spike_supporto_perc ≤ 20) :
    volumes_fb r1 s w = (s + 1, w ++ [warnVolAbove]) ∧
    volumes_fb r2 s w = (s, w ++ [warnVolBelow]) := by
  constructor
  · norm_num [volumes_fb, h1, not_lt.mpr h1s]
  · norm_num [volumes_fb, h2, not_lt.mpr h2s]

/-- C8 witness: the volume filter evaluated on concrete profiles 15 and -15
with score 2 and no prior warnings. -/
theorem C8_volume_filter_witness :
    volumes_fb reportVol15 2 [] = (2 + 1, [] ++ [warnVolAbove]) ∧
    volumes_fb reportVolNeg15 2 [] = (2, [] ++ [warnVolBelow]) :=
  C8_volume_filter reportVol15 reportVolNeg15 2 [] rfl
    (by norm_num [reportVol15]) rfl (by norm_num [reportVolNeg15])

/-- C1 counterexample: on a report with positive divergence, oversold
oscillator, price at support, volume confirmation and high Monte-Carlo
probability the score is 4.5, which exceeds max_score = 4, refuting
score ≤ max_score. -/
theorem C1_counterexample_score_exceeds_max :
    (ta_report_feedback reportOversold none).score = 9 / 2 ∧
    (ta_report_feedback reportOversold none).max_score = 4 ∧
    ¬ (ta_report_feedback reportOversold none).score ≤
        (ta_report_feedback reportOversold none).max_score := by
  norm_num [ta_report_feedback, rsi_fb, fibo_fb, volumes_fb, montecarlo_fb,
    suggestion_fb, reportOversold, round2, round_eq, listMin, listMax,
    FibonacciLevels.values, positiva_ne_nessuna]

/-- C2 counterexample: on a report whose seven Fibonacci levels all equal
200 (degenerate equal range) and current price 200, the support-proximity
filter does not treat the situation as "no signal": it adds 1 to the score
and appends the near-support warning. -/
theorem C2_counterexample_degenerate_still_signals :
    listMin reportFlatFibo.fibonacci.values =
      listMax reportFlatFibo.fibonacci.values ∧
    (fibo_fb (some 200) reportFlatFibo 0 []).1 = 1 ∧
    (fibo_fb (some 200) reportFlatFibo 0 []).2 = [warnSupport] := by
  norm_num [fibo_fb, reportFlatFibo, listMin, listMax, FibonacciLevels.values]

/-- C2 amended: with a degenerate range (all Fibonacci levels equal to some
L > 0) the filter still signals on every current price: it adds 1 and the
near-support warning whenever the price is at most 1.02·L, and otherwise
adds nothing and appends the near-resistance warning; it never triggers
both branches at once. -/
theorem C2_amended_degenerate_behavior (r : AnalysisReport) (cp : Option ℚ)
    (s : ℚ) (w : List String) (L : ℚ)
    (hmin : listMin r.fibonacci.values = L)
    (hmax : listMax r.fibonacci.values = L) (hL : 0 < L) :
    (cp.getD r.montecarlo.base_case ≤ L * 1.02 →
      fibo_fb cp r s w = (s + 1, w ++ [warnSupport])) ∧
    (L * 1.02 < cp.getD r.montecarlo.base_case →
      fibo_fb cp r s w = (s, w ++ [warnResistance])) := by
  constructor
  · intro h
    simp only [fibo_fb]
    rw [hmin, if_pos h]
  · intro h
    simp only [fibo_fb]
    rw [hmin, hmax, if_neg (not_le.mpr h), if_pos (by nlinarith)]

/-- C2 witness: the amended behavior evaluated on the degenerate report with
all levels 200 and current price 200. -/
theorem C2_amended_witness :
    fibo_fb (some 200) reportFlatFibo 0 [] = (0 + 1, [] ++ [warnSupport]) :=
  (C2_amended_degenerate_behavior reportFlatFibo (some 200) 0 [] 200
    (by norm_num [listMin, reportFlatFibo, FibonacciLevels.values])
    (by norm_num [listMax, reportFlatFibo, FibonacciLevels.values])
    (by norm_num)).1 (by norm_num [reportFlatFibo])

lemma rsi_fb_score_cases (r : AnalysisReport) (s : ℚ) (w : List String) :
    (rsi_fb r s w).1 = s ∨ (rsi_fb r s w).1 = s + 1 / 2 ∨
    (rsi_fb r s w).1 = s + 1 ∨ (rsi_fb r s w).1 = s + 3 / 2 := by
  simp only [rsi_fb]
  split_ifs <;> dsimp only <;>
    first
      | (left; ring1)
      | (right; left; ring1)
      | (right; right; left; ring1)
      | (right; right; right; ring1)

lemma fibo_fb_score_cases (cp : Option ℚ) (r : AnalysisReport) (s : ℚ)
    (w : List String) :
    (fibo_fb cp r s w).1 = s ∨ (fibo_fb cp r s w).1 = s + 1 := by
  simp only [fibo_fb]
  split_ifs <;> dsimp only <;> first | (left; ring1) | (right; ring1)

lemma volumes_fb_score_cases (r : AnalysisReport) (s : ℚ) (w : List String) :
    (volumes_fb r s w).1 = s ∨ (volumes_fb r s w).1 = s + 1 := by
  simp only [volumes_fb]
  split_ifs <;> dsimp only <;> first | (left; ring1) | (right; ring1)

lemma montecarlo_fb_score_cases (r : AnalysisReport) (s : ℚ) (w : List String) :
    (montecarlo_fb r s w).1 = s ∨ (montecarlo_fb r s w).1 = s + 1 := by
  simp only [montecarlo_fb]
  split_ifs <;> dsimp only <;> first | (left; ring1) | (right; ring1)

lemma ta_report_feedback_score_num (r : AnalysisReport) (cp : Option ℚ) :
    ∃ n : ℕ, n ≤ 9 ∧ (ta_report_feedback r cp).score = (n : ℚ) / 2 := by
  simp only [ta_report_feedback]
  rcases montecarlo_fb_score_cases r
      (volumes_fb r (fibo_fb cp r (rsi_fb r 0 []).1 (rsi_fb r 0 []).2).1
        (fibo_fb cp r (rsi_fb r 0 []).1 (rsi_fb r 0 []).2).2).1
      (volumes_fb r (fibo_fb cp r (rsi_fb r 0 []).1 (rsi_fb r 0 []).2).1
        (fibo_fb cp r (rsi_fb r 0 []).1 (rsi_fb r 0 []).2).2).2 with h4 | h4 <;>
    rw [h4] <;>
    rcases volumes_fb_score_cases r
        (fibo_fb cp r (rsi_fb r 0 []).1 (rsi_fb r 0 []).2).1
        (fibo_fb cp r (rsi_fb r 0 []).1 (rsi_fb r 0 []).2).2 with h3 | h3 <;>
    rw [h3] <;>
    rcases fibo_fb_score_cases cp r (rsi_fb r 0 []).1 (rsi_fb r 0 []).2 with h2 | h2 <;>
    rw [h2] <;>
    rcases rsi_fb_score_cases r 0 [] with h1 | h1 | h1 | h1 <;>
    rw [h1] <;>
    first
      | (refine ⟨0, ?_, ?_⟩ <;> norm_num [round2, round_eq] <;> done)
      | (refine ⟨1, ?_, ?_⟩ <;> norm_num [round2, round_eq] <;> done)
      | (refine ⟨2, ?_, ?_⟩ <;> norm_num [round2, round_eq] <;> done)
      | (refine ⟨3, ?_, ?_⟩ <;> norm_num [round2, round_eq] <;> done)
      | (refine ⟨4, ?_, ?_⟩ <;> norm_num [round2, round_eq] <;> done)
      | (refine ⟨5, ?_, ?_⟩ <;> norm_num [round2, round_eq] <;> done)
      | (refine ⟨6, ?_, ?_⟩ <;> norm_num [round2, round_eq] <;> done)
      | (refine ⟨7, ?_, ?_⟩ <;> norm_num [round2, round_eq] <;> done)
      | (refine ⟨8, ?_, ?_⟩ <;> norm_num [round2, round_eq] <;> done)
      | (refine ⟨9, ?_, ?_⟩ <;> norm_num [round2, round_eq] <;> done)

/-- C1 amended: every decision result has 0 ≤ score and max_score = 4, but
the score bound is 4.5, not max_score: the momentum filter's 0.5 oversold
bonus stacked on the four one-point contributions can exceed 4. -/
theorem C1_amended_score_bounds (r : AnalysisReport) (cp : Option ℚ) :
    0 ≤ (ta_report_feedback r cp).score ∧
    (ta_report_feedback r cp).score ≤ 9 / 2 ∧
    (ta_report_feedback r cp).max_score = 4 := by
  obtain ⟨n, hn, hs⟩ := ta_report_feedback_score_num r cp
  refine ⟨?_, ?_, rfl⟩
  · rw [hs]
    positivity
  · rw [hs]
    have hq : (n : ℚ) ≤ 9 := by exact_mod_cast hn
    linarith

/-- C10: each scoring filter only ever increases the score, the momentum
filter's contribution lies in {0, 0.5, 1, 1.5} and the other three
filters' contributions in {0, 1}; consequently the final score of
ta_report_feedback is a non-negative multiple of 0.5 no greater than 4.5. -/
theorem C10_filter_contributions (r : AnalysisReport) (cp : Option ℚ)
    (s : ℚ) (w : List String) :
    (s ≤ (rsi_fb r s w).1 ∧
      (rsi_fb r s w).1 - s ∈ ({0, 1 / 2, 1, 3 / 2} : Set ℚ)) ∧
    (s ≤ (fibo_fb cp r s w).1 ∧
      (fibo_fb cp r s w).1 - s ∈ ({0, 1} : Set ℚ)) ∧
    (s ≤ (volumes_fb r s w).1 ∧
      (volumes_fb r s w).1 - s ∈ ({0, 1} : Set ℚ)) ∧
    (s ≤ (montecarlo_fb r s w).1 ∧
      (montecarlo_fb r s w).1 - s ∈ ({0, 1} : Set ℚ)) ∧
    ∃ n : ℕ, (ta_report_feedback r cp).score = (n : ℚ) / 2 ∧
      0 ≤ (ta_report_feedback r cp).score ∧
      (ta_report_feedback r cp).score ≤ 9 / 2 := by
  refine ⟨⟨?_, ?_⟩, ⟨?_, ?_⟩, ⟨?_, ?_⟩, ⟨?_, ?_⟩, ?_⟩
  · rcases rsi_fb_score_cases r s w with h | h | h | h <;> rw [h] <;> linarith
  · rcases rsi_fb_score_cases r s w with h | h | h | h <;> rw [h] <;>
      norm_num [Set.mem_insert_iff]
  · rcases fibo_fb_score_cases cp r s w with h | h <;> rw [h] <;> linarith
  · rcases fibo_fb_score_cases cp r s w with h | h <;> rw [h] <;>
      norm_num [Set.mem_insert_iff]
  · rcases volumes_fb_score_cases r s w with h | h <;> rw [h] <;> linarith
  · rcases volumes_fb_score_cases r s w with h | h <;> rw [h] <;>
      norm_num [Set.mem_insert_iff]
  · rcases montecarlo_fb_score_cases r s w with h | h <;> rw [h] <;> linarith
  · rcases montecarlo_fb_score_cases r s w with h | h <;> rw [h] <;>
      norm_num [Set.mem_insert_iff]
  · obtain ⟨n, hn, hs⟩ := ta_report_feedback_score_num r cp
    refine ⟨n, hs, ?_, ?_⟩
    · rw [hs]
      positivity
    · rw [hs]
      have hq : (n : ℚ) ≤ 9 := by exact_mod_cast hn
      linarith

lemma classify_eq_positiva_iff (a b : ℚ) :
    classify_divergence a b = "positiva" ↔ a < 0 ∧ 0 < b := by
  unfold classify_divergence
  split_ifs with h1 h2
  · exact iff_of_true rfl h1
  · exact iff_of_false negativa_ne_positiva h1
  · exact iff_of_false nessuna_ne_positiva h1

lemma classify_eq_negativa_iff (a b : ℚ) :
    classify_divergence a b = "negativa" ↔ 0 < a ∧ b < 0 := by
  unfold classify_divergence
  split_ifs with h1 h2
  · refine iff_of_false positiva_ne_negativa ?_
    rintro ⟨c, d⟩
    rcases h1 with ⟨e, f⟩
    linarith
  · exact iff_of_true rfl h2
  · exact iff_of_false nessuna_ne_negativa h2

lemma classify_mem (a b : ℚ) :
    classify_divergence a b = "positiva" ∨ classify_divergence a b = "negativa" ∨
      classify_divergence a b = "nessuna" := by
  unfold classify_divergence
  split_ifs <;> simp

/-- C7: the divergence classification is antisymmetric — negating both
trends swaps "positiva" and "negativa" and fixes "nessuna"; trends that are
both zero or share a sign classify as "nessuna"; and the classification is
"positiva" exactly when price trend < 0 < oscillator trend and "negativa"
exactly when price trend > 0 > oscillator trend. -/
theorem C7_divergence_antisymmetry (pt rt : ℚ) :
    classify_divergence (-pt) (-rt) = swapDivergence (classify_divergence pt rt) ∧
    ((pt = 0 ∧ rt = 0) ∨ (0 < pt ∧ 0 < rt) ∨ (pt < 0 ∧ rt < 0) →
      classify_divergence pt rt = "nessuna") ∧
    (classify_divergence pt rt = "positiva" ↔ pt < 0 ∧ 0 < rt) ∧
    (classify_divergence pt rt = "negativa" ↔ 0 < pt ∧ rt < 0) := by
  have hswap : classify_divergence (-pt) (-rt) =
      swapDivergence (classify_divergence pt rt) := by
    rcases classify_mem pt rt with h | h | h <;> rw [h]
    · obtain ⟨h1, h2⟩ := (classify_eq_positiva_iff pt rt).mp h
      have e : swapDivergence "positiva" = "negativa" := by decide
      rw [e]
      exact (classify_eq_negativa_iff (-pt) (-rt)).mpr ⟨by linarith, by linarith⟩
    · obtain ⟨h1, h2⟩ := (classify_eq_negativa_iff pt rt).mp h
      have e : swapDivergence "negativa" = "positiva" := by decide
      rw [e]
      exact (classify_eq_positiva_iff (-pt) (-rt)).mpr ⟨by linarith, by linarith⟩
    · have e : swapDivergence "nessuna" = "nessuna" := by decide
      rw [e]
      rcases classify_mem (-pt) (-rt) with g | g | g
      · exfalso
        obtain ⟨g1, g2⟩ := (classify_eq_positiva_iff (-pt) (-rt)).mp g
        have : classify_divergence pt rt = "negativa" :=
          (classify_eq_negativa_iff pt rt).mpr ⟨by linarith, by linarith⟩
        rw [h] at this
        exact nessuna_ne_negativa this
      · exfalso
        obtain ⟨g1, g2⟩ := (classify_eq_negativa_iff (-pt) (-rt)).mp g
        have : classify_divergence pt rt = "positiva" :=
          (classify_eq_positiva_iff pt rt).mpr ⟨by linarith, by linarith⟩
        rw [h] at this
        exact nessuna_ne_positiva this
      · exact g
  refine ⟨hswap, ?_, classify_eq_positiva_iff pt rt, classify_eq_negativa_iff pt rt⟩
  intro hcase
  rcases classify_mem pt rt with h | h | h
  · exfalso
    obtain ⟨a, b⟩ := (classify_eq_positiva_iff pt rt).mp h
    rcases hcase with ⟨h1, h2⟩ | ⟨h1, h2⟩ | ⟨h1, h2⟩ <;> linarith
  · exfalso
    obtain ⟨a, b⟩ := (classify_eq_negativa_iff pt rt).mp h
    rcases hcase with ⟨h1, h2⟩ | ⟨h1, h2⟩ | ⟨h1, h2⟩ <;> linarith
  · exact h

/-- C9: parameter validation rejects, before any computation, investment
amount 0, annual rate 0, term 0, deal price 0 and a two-character symbol,
each independently; and acceptance holds exactly when all four numbers are
strictly positive and the symbol has at least 3 characters. -/
theorem C9_parameter_validation :
    process_parameters 0 57 3 1800 "ETH-USD" report1750 =
      Except.error "I parametri non sono validi" ∧
    process_parameters 1000 0 3 1800 "ETH-USD" report1750 =
      Except.error "I parametri non sono validi" ∧
    process_parameters 1000 57 0 1800 "ETH-USD" report1750 =
      Except.error "I parametri non sono validi" ∧
    process_parameters 1000 57 3 0 "ETH-USD" report1750 =
      Except.error "I parametri non sono validi" ∧
    process_parameters 1000 57 3 1800 "ET" report1750 =
      Except.error "I parametri non sono validi" ∧
    ∀ (s apy t deal : ℤ) (symbol : String) (report : AnalysisReport),
      (∃ res, process_parameters s apy t deal symbol report = Except.ok res) ↔
        (0 < s ∧ 0 < apy ∧ 0 < t ∧ 0 < deal ∧ 3 ≤ symbol.length) := by
  refine ⟨?_, ?_, ?_, ?_, ?_, ?_⟩
  · norm_num [process_parameters]
  · norm_num [process_parameters]
  · norm_num [process_parameters]
  · norm_num [process_parameters]
  · norm_num [process_parameters, show ("ET").length = 2 from rfl]
  · intro s apy t deal symbol report
    constructor
    · rintro ⟨res, hres⟩
      by_cases hc : s ≤ 0 ∨ apy ≤ 0 ∨ t ≤ 0 ∨ deal ≤ 0 ∨ symbol.length < 3
      · rw [process_parameters, if_pos hc] at hres
        cases hres
      · push_neg at hc
        exact hc
    · rintro ⟨a, b, c, d, e⟩
      have hc : ¬(s ≤ 0 ∨ apy ≤ 0 ∨ t ≤ 0 ∨ deal ≤ 0 ∨ symbol.length < 3) := by
        push_neg
        exact ⟨a, b, c, d, e⟩
      refine ⟨calculate_net_gain (s : ℚ) (apy : ℚ) (t : ℚ) (deal : ℚ) report, ?_⟩
      rw [process_parameters, if_neg hc]

lemma le_foldl_max (l : List ℚ) (a : ℚ) : a ≤ l.foldl max a := by
  induction l generalizing a with
  | nil => simp
  | cons x xs ih => exact le_trans (le_max_left a x) (ih (max a x))

lemma foldl_min_le (l : List ℚ) (a : ℚ) : l.foldl min a ≤ a := by
  induction l generalizing a with
  | nil => simp
  | cons x xs ih => exact le_trans (ih (min a x)) (min_le_left a x)

lemma listMin_le_listMax (l : List ℚ) (h : l ≠ []) : listMin l ≤ listMax l := by
  cases l with
  | nil => exact absurd rfl h
  | cons x xs => exact le_trans (foldl_min_le xs x) (le_foldl_max xs x)

lemma takeLastPy_ne_nil (k : ℕ) (l : List ℚ) (h : l ≠ []) : takeLastPy k l ≠ [] := by
  unfold takeLastPy
  split_ifs with hk
  · exact h
  · intro hcon
    rw [List.drop_eq_nil_iff_le] at hcon
    have hl : 0 < l.length := List.length_pos.mpr h
    omega

/-- C5: for every non-empty close series, the Fibonacci 0.0% level equals
the maximum close over the lookback window and the 100.0% level equals the
minimum, and the seven levels are non-increasing as the ratio increases
through 0, 23.6, 38.2, 50, 61.8, 78.6, 100 percent. -/
theorem C5_fibonacci_monotone (closes : List ℚ) (lookback : ℕ)
    (h : closes ≠ []) :
    (fibonacci_retracement closes lookback).p0 =
      listMax (takeLastPy lookback closes) ∧
    (fibonacci_retracement closes lookback).p100 =
      listMin (takeLastPy lookback closes) ∧
    (fibonacci_retracement closes lookback).p236 ≤
      (fibonacci_retracement closes lookback).p0 ∧
    (fibonacci_retracement closes lookback).p382 ≤
      (fibonacci_retracement closes lookback).p236 ∧
    (fibonacci_retracement closes lookback).p50 ≤
      (fibonacci_retracement closes lookback).p382 ∧
    (fibonacci_retracement closes lookback).p618 ≤
      (fibonacci_retracement closes lookback).p50 ∧
    (fibonacci_retracement closes lookback).p786 ≤
      (fibonacci_retracement closes lookback).p618 ∧
    (fibonacci_retracement closes lookback).p100 ≤
      (fibonacci_retracement closes lookback).p786 := by
  have hmm : listMin (takeLastPy lookback closes) ≤
      listMax (takeLastPy lookback closes) :=
    listMin_le_listMax _ (takeLastPy_ne_nil lookback closes h)
  simp only [fibonacci_retracement]
  refine ⟨by trivial, by trivial, by linarith, by linarith, by linarith,
    by linarith, by linarith, by linarith⟩

/-- C5 witness: the Fibonacci level set of the concrete series [1, 3, 2]
with a two-element lookback window. -/
theorem C5_fibonacci_monotone_witness :
    (fibonacci_retracement [1, 3, 2] 2).p0 = listMax (takeLastPy 2 [1, 3, 2]) ∧
    (fibonacci_retracement [1, 3, 2] 2).p100 = listMin (takeLastPy 2 [1, 3, 2]) ∧
    (fibonacci_retracement [1, 3, 2] 2).p236 ≤ (fibonacci_retracement [1, 3, 2] 2).p0 ∧
    (fibonacci_retracement [1, 3, 2] 2).p382 ≤ (fibonacci_retracement [1, 3, 2] 2).p236 ∧
    (fibonacci_retracement [1, 3, 2] 2).p50 ≤ (fibonacci_retracement [1, 3, 2] 2).p382 ∧
    (fibonacci_retracement [1, 3, 2] 2).p618 ≤ (fibonacci_retracement [1, 3, 2] 2).p50 ∧
    (fibonacci_retracement [1, 3, 2] 2).p786 ≤ (fibonacci_retracement [1, 3, 2] 2).p618 ∧
    (fibonacci_retracement [1, 3, 2] 2).p100 ≤ (fibonacci_retracement [1, 3, 2] 2).p786 :=
  C5_fibonacci_monotone [1, 3, 2] 2 (by simp)

/-- C6: the deal evaluator computes interest rate, interest, breakeven
price, conditional purchase loss and net gain by the stated closed-form
formulas, and on the worked example (1000, 57%, 3 days, deal 1800,
predicted 1750) yields interest ≈ 4.685, breakeven ≈ 1791.57, purchase
loss ≈ 27.78 and net gain ≈ −23.10. -/
theorem C6_deal_evaluator (s apy t deal : ℚ) (report : AnalysisReport)
    (hs : 0 < s) (ha : 0 < apy) (ht : 0 < t) (hd : 0 < deal) :
    (calculate_net_gain s apy t deal report).interest_rate =
      apy / 100 * (t / 365) ∧
    (calculate_net_gain s apy t deal report).interest =
      s * (apy / 100 * (t / 365)) ∧
    (calculate_net_gain s apy t deal report).breakeven_price =
      deal * (1 - apy / 100 * (t / 365)) ∧
    (report.montecarlo.base_case ≤ deal →
      (calculate_net_gain s apy t deal report).purchase_loss =
        s * (1 - report.montecarlo.base_case / deal)) ∧
    (deal < report.montecarlo.base_case →
      (calculate_net_gain s apy t deal report).purchase_loss = 0) ∧
    (calculate_net_gain s apy t deal report).net_gain =
      (calculate_net_gain s apy t deal report).interest -
        (calculate_net_gain s apy t deal report).purchase_loss ∧
    |(calculate_net_gain 1000 57 3 1800 report1750).interest - 4.685| < 1 / 1000 ∧
    |(calculate_net_gain 1000 57 3 1800 report1750).breakeven_price - 1791.57| < 1 / 100 ∧
    |(calculate_net_gain 1000 57 3 1800 report1750).purchase_loss - 27.78| < 1 / 100 ∧
    |(calculate_net_gain 1000 57 3 1800 report1750).net_gain - (-23.10)| < 1 / 100 := by
  refine ⟨rfl, rfl, rfl, ?_, ?_, rfl, ?_, ?_, ?_, ?_⟩
  · intro h
    simp only [calculate_net_gain]
    rw [if_pos h]
  · intro h
    simp only [calculate_net_gain]
    rw [if_neg (not_le.mpr h)]
  · rw [abs_sub_lt_iff]
    constructor <;> norm_num [calculate_net_gain, report1750]
  · rw [abs_sub_lt_iff]
    constructor <;> norm_num [calculate_net_gain, report1750]
  · rw [abs_sub_lt_iff]
    constructor <;> norm_num [calculate_net_gain, report1750]
  · rw [abs_sub_lt_iff]
    constructor <;> norm_num [calculate_net_gain, report1750]

/-- C6 witness: the deal-evaluator formulas at the worked example inputs
1000, 57, 3, 1800 with the report whose base case is 1750. -/
theorem C6_deal_evaluator_witness :
    (calculate_net_gain 1000 57 3 1800 report1750).interest_rate =
      57 / 100 * (3 / 365) ∧
    (calculate_net_gain 1000 57 3 1800 report1750).interest =
      1000 * (57 / 100 * (3 / 365)) ∧
    (calculate_net_gain 1000 57 3 1800 report1750).breakeven_price =
      1800 * (1 - 57 / 100 * (3 / 365)) ∧
    (report1750.montecarlo.base_case ≤ 1800 →
      (calculate_net_gain 1000 57 3 1800 report1750).purchase_loss =
        1000 * (1 - report1750.montecarlo.base_case / 1800)) ∧
    (1800 < report1750.montecarlo.base_case →
      (calculate_net_gain 1000 57 3 1800 report1750).purchase_loss = 0) ∧
    (calculate_net_gain 1000 57 3 1800 report1750).net_gain =
      (calculate_net_gain 1000 57 3 1800 report1750).interest -
        (calculate_net_gain 1000 57 3 1800 report1750).purchase_loss ∧
    |(calculate_net_gain 1000 57 3 1800 report1750).interest - 4.685| < 1 / 1000 ∧
    |(calculate_net_gain 1000 57 3 1800 report1750).breakeven_price - 1791.57| < 1 / 100 ∧
    |(calculate_net_gain 1000 57 3 1800 report1750).purchase_loss - 27.78| < 1 / 100 ∧
    |(calculate_net_gain 1000 57 3 1800 report1750).net_gain - (-23.10)| < 1 / 100 :=
  C6_deal_evaluator 1000 57 3 1800 report1750 (by norm_num) (by norm_num)
    (by norm_num) (by norm_num)

lemma log_returns_const : log_returns constCloses = [0, 0, 0] := by
  norm_num [log_returns, constCloses, List.zip, Real.log_one]

lemma mc_mu_const : mc_mu constCloses = 0 := by
  simp [mc_mu, log_returns_const, seriesMean]

lemma mc_sigma_raw_const : mc_sigma_raw constCloses = 0 := by
  simp [mc_sigma_raw, log_returns_const, seriesStd, seriesMean]

lemma mc_sigma_const : mc_sigma constCloses = 1e-4 := by
  norm_num [mc_sigma, mc_sigma_raw_const]

lemma mc_S0_const : mc_S0 constCloses = 100 := by
  norm_num [mc_S0, constCloses]

lemma foldl_const_mul (c S : ℝ) (l : List ℕ) :
    l.foldl (fun p _ => p * c) S = S * c ^ l.length := by
  induction l generalizing S with
  | nil => simp
  | cons x xs ih =>
    rw [List.foldl_cons, ih, List.length_cons, pow_succ]
    ring

/-- C3: on a constant close series the raw volatility is zero, but the
source clamps it to 1e-4 before testing `np.isclose(sigma, 0)`, so the
constant-value branch never runs and the simulation uses sigma = 1e-4:
with the admissible standard-normal draw 1 at every step, the first
simulated terminal price differs from the starting price, refuting "every
simulated terminal price equals the starting price exactly". -/
theorem C3_constant_series_paths_not_exact :
    mc_S0 constCloses = 100 ∧
    mc_sigma constCloses = 1e-4 ∧
    (mc_results constCloses 30 5000 (fun _ _ => 1)).headD 0 ≠ mc_S0 constCloses := by
  refine ⟨mc_S0_const, mc_sigma_const, ?_⟩
  rw [mc_results, if_neg (by
    rw [mc_sigma_const, sub_zero, abs_of_pos (by norm_num : (0 : ℝ) < 1e-4)]
    norm_num)]
  rw [List.range_succ_eq_map 4999, List.map_cons, List.headD_cons]
  rw [mc_path, mc_mu_const, mc_sigma_const, mc_S0_const]
  rw [foldl_const_mul, List.length_range]
  intro hcon
  have h100 : (100 : ℝ) ≠ 0 := by norm_num
  have hexp : Real.exp (0 + 1e-4 * 1) ^ 30 = 1 :=
    mul_left_cancel₀ h100 (hcon.trans (mul_one 100).symm)
  rw [← Real.exp_nat_mul, Real.exp_eq_one_iff] at hexp
  norm_num at hexp

end NexoDual
